import Mathlib

/-!
# AdaptiFlux `Framebuffer`: a shallow embedding and its checked properties

Source files: `src/Framebuffer.cpp`, `include/Framebuffer.h`.

`Framebuffer` is a sequence of OpenGL calls around three GL objects.  The
graphics context is an explicit state (`GLContext`); every GL entry point the
source calls is a function on that state, storing its arguments in the slot the
call addresses.  The member functions of `Framebuffer` are then translated
statement by statement, in source order.

Conventions
* `GLuint`, `GLenum`, `size_t` are `Nat`; `int`, `GLint` are `Int`.  Where the
  source does arithmetic on them the wrap-around is written out
  (`wrapInt32`, `toGLenum`, `toSizeT`).
* Driver-side argument validation is outside the model: a call stores the
  arguments it is given.  The one driver failure that is modelled is an error
  raised during the texture readback in `screenshot`.
* The rasteriser is not modelled: clears and draws are recorded in the order
  they are issued (`GLContext.commands`), texture contents are whatever the
  context holds.
* What the process receives from outside (the value `stbi_write_jpg` returns,
  the error the driver raises during a readback, the program
  `Program::make_program` hands back) is an argument of the corresponding
  function.
-/

namespace AdaptiFlux

/-! ## Machine integers -/

/-- Two's-complement value of an `int` (32 bit) result. -/
def wrapInt32 (i : Int) : Int := (i + 2 ^ 31) % 2 ^ 32 - 2 ^ 31

/-- Conversion of an `int` to `GLenum` (`unsigned int`, 32 bit). -/
def toGLenum (i : Int) : Nat := (i % 2 ^ 32).toNat

/-- Conversion of an `int` to `size_t` (64 bit). -/
def toSizeT (i : Int) : Nat := (i % 2 ^ 64).toNat

/-- Value of `sizeof(unsigned int)`. -/
def sizeof_unsigned_int : Nat := 4

/-! ## GL constants used by the source (values of `glad.h`) -/

def GL_NONE : Nat := 0
def GL_NO_ERROR : Nat := 0
def GL_FALSE : Nat := 0
def GL_TRIANGLES : Nat := 0x0004
def GL_DEPTH_BUFFER_BIT : Nat := 0x00000100
def GL_STENCIL_BUFFER_BIT : Nat := 0x00000400
def GL_COLOR_BUFFER_BIT : Nat := 0x00004000
def GL_VIEWPORT : Nat := 0x0BA2
def GL_TEXTURE_2D : Nat := 0x0DE1
def GL_UNSIGNED_BYTE : Nat := 0x1401
def GL_FLOAT : Nat := 0x1406
def GL_RGB : Nat := 0x1907
def GL_LINEAR : Int := 0x2601
def GL_TEXTURE_MAG_FILTER : Nat := 0x2800
def GL_TEXTURE_MIN_FILTER : Nat := 0x2801
def GL_TEXTURE_WRAP_S : Nat := 0x2802
def GL_TEXTURE_WRAP_T : Nat := 0x2803
def GL_REPEAT : Int := 0x2901
def GL_TEXTURE0 : Int := 0x84C0
def GL_DEPTH_STENCIL_ATTACHMENT : Nat := 0x821A
def GL_DEPTH24_STENCIL8 : Nat := 0x88F0
def GL_STATIC_DRAW : Nat := 0x88E4
def GL_COLOR_ATTACHMENT0 : Nat := 0x8CE0
def GL_FRAMEBUFFER : Nat := 0x8D40
def GL_RENDERBUFFER : Nat := 0x8D41

/-! ## The graphics context -/

/-- The viewport rectangle of the context. -/
structure Viewport where
  x : Int
  y : Int
  width : Int
  height : Int
deriving DecidableEq, Repr

/-- An `int[4]`, as `last_viewport_conf`. -/
structure Int4 where
  v0 : Int
  v1 : Int
  v2 : Int
  v3 : Int
deriving DecidableEq, Repr

/-- Level-0 image of a 2D texture: its size, its internal format, and the byte
of every texel (column, row, channel); row 0 is the bottom row. -/
structure TexImage where
  width : Int
  height : Int
  internalFormat : Nat
  texel : Nat → Nat → Nat → Nat

/-- Storage of a renderbuffer object. -/
structure RenderbufferStorage where
  internalFormat : Nat
  width : Int
  height : Int
deriving DecidableEq, Repr

/-- The commands that reach the rasteriser, in the order they were issued, each
with the context state it ran under. -/
inductive GLCommand where
  | clear (framebuffer : Nat) (mask : Nat)
  | draw (framebuffer : Nat) (program : Nat) (vertexArray : Nat)
      (mode : Nat) (first : Int) (count : Int)
deriving DecidableEq, Repr

/-- The state of the OpenGL context that `Framebuffer` reads or writes. -/
structure GLContext where
  /-- Value of `GL_VIEWPORT`. -/
  viewport : Viewport
  /-- Framebuffer object bound to `GL_FRAMEBUFFER`; `0` is the default target. -/
  framebufferBinding : Nat
  /-- Renderbuffer bound to `GL_RENDERBUFFER`. -/
  renderbufferBinding : Nat
  /-- Selected texture unit, as the enum `GL_TEXTURE0 + i`. -/
  activeTexture : Nat
  /-- Texture bound at a unit (enum) for a target. -/
  textureBinding : Nat → Nat → Nat
  /-- Parameters of a texture object: texture, parameter name. -/
  texParameter : Nat → Nat → Int
  /-- Level-0 image of a texture object. -/
  texImage : Nat → TexImage
  /-- Storage of a renderbuffer object. -/
  renderbufferStorage : Nat → RenderbufferStorage
  /-- Texture attached at `GL_COLOR_ATTACHMENT0` of a framebuffer object. -/
  colorAttachment0 : Nat → Nat
  /-- Renderbuffer attached at `GL_DEPTH_STENCIL_ATTACHMENT` of a framebuffer object. -/
  depthStencilAttachment : Nat → Nat
  /-- Program selected by `glUseProgram`. -/
  currentProgram : Nat
  /-- Integer uniforms: program, location. -/
  uniform1i : Nat → Int → Int
  /-- Value of `GL_COLOR_CLEAR_VALUE` (red, green, blue, alpha). -/
  clearColor : Rat × Rat × Rat × Rat
  /-- Value of `GL_PACK_ALIGNMENT`; the context starts with 4. -/
  packAlignment : Nat
  /-- The pending error flag, what `glGetError` would return. -/
  error : Nat
  /-- Next unused texture, renderbuffer, framebuffer and vertex-array names. -/
  nextTexture : Nat
  nextRenderbuffer : Nat
  nextFramebuffer : Nat
  nextVertexArray : Nat
  /-- Vertex array bound by the last draw. -/
  vertexArrayBinding : Nat
  /-- Clears and draws issued so far, oldest first. -/
  commands : List GLCommand

/-! ## GL entry points -/

/-- GL call `glGenTextures(1, &name)`. -/
def glGenTextures (ctx : GLContext) : Nat × GLContext :=
  (ctx.nextTexture, { ctx with nextTexture := ctx.nextTexture + 1 })

/-- GL call `glGenRenderbuffers(1, &name)`. -/
def glGenRenderbuffers (ctx : GLContext) : Nat × GLContext :=
  (ctx.nextRenderbuffer, { ctx with nextRenderbuffer := ctx.nextRenderbuffer + 1 })

/-- GL call `glGenFramebuffers(1, &name)`. -/
def glGenFramebuffers (ctx : GLContext) : Nat × GLContext :=
  (ctx.nextFramebuffer, { ctx with nextFramebuffer := ctx.nextFramebuffer + 1 })

/-- GL call `glBindTexture(target, texture)`: binds at the selected texture unit. -/
def glBindTexture (target texture : Nat) (ctx : GLContext) : GLContext :=
  { ctx with textureBinding := fun u t =>
      if u = ctx.activeTexture ∧ t = target then texture else ctx.textureBinding u t }

/-- GL call `glActiveTexture(texture)`: selects the texture unit later calls address. -/
def glActiveTexture (texture : Nat) (ctx : GLContext) : GLContext :=
  { ctx with activeTexture := texture }

/-- GL call `glTexParameteri(target, pname, param)`, on the texture bound at the selected unit. -/
def glTexParameteri (target pname : Nat) (param : Int) (ctx : GLContext) : GLContext :=
  { ctx with texParameter := fun tex p =>
      if tex = ctx.textureBinding ctx.activeTexture target ∧ p = pname then param
      else ctx.texParameter tex p }

/-- GL call `glTexImage2D(target, 0, internalformat, width, height, 0, format, type, nullptr)`:
new storage for the texture bound at the selected unit.  No data is supplied, so
the contents are unspecified; they are modelled as zero. -/
def glTexImage2D (target internalformat : Nat) (width height : Int) (ctx : GLContext) :
    GLContext :=
  { ctx with texImage := fun tex =>
      if tex = ctx.textureBinding ctx.activeTexture target then
        { width := width, height := height, internalFormat := internalformat,
          texel := fun _ _ _ => 0 }
      else ctx.texImage tex }

/-- GL call `glBindRenderbuffer(GL_RENDERBUFFER, renderbuffer)`. -/
def glBindRenderbuffer (renderbuffer : Nat) (ctx : GLContext) : GLContext :=
  { ctx with renderbufferBinding := renderbuffer }

/-- GL call `glRenderbufferStorage(GL_RENDERBUFFER, internalformat, width, height)`. -/
def glRenderbufferStorage (internalformat : Nat) (width height : Int) (ctx : GLContext) :
    GLContext :=
  { ctx with renderbufferStorage := fun rb =>
      if rb = ctx.renderbufferBinding then
        { internalFormat := internalformat, width := width, height := height }
      else ctx.renderbufferStorage rb }

/-- GL call `glBindFramebuffer(GL_FRAMEBUFFER, framebuffer)`. -/
def glBindFramebuffer (framebuffer : Nat) (ctx : GLContext) : GLContext :=
  { ctx with framebufferBinding := framebuffer }

/-- GL call `glFramebufferTexture2D(GL_FRAMEBUFFER, GL_COLOR_ATTACHMENT0, GL_TEXTURE_2D, texture, 0)`. -/
def glFramebufferTexture2D (texture : Nat) (ctx : GLContext) : GLContext :=
  { ctx with colorAttachment0 := fun fbo =>
      if fbo = ctx.framebufferBinding then texture else ctx.colorAttachment0 fbo }

/-- GL call `glFramebufferRenderbuffer(GL_FRAMEBUFFER, GL_DEPTH_STENCIL_ATTACHMENT, GL_RENDERBUFFER, rb)`. -/
def glFramebufferRenderbuffer (renderbuffer : Nat) (ctx : GLContext) : GLContext :=
  { ctx with depthStencilAttachment := fun fbo =>
      if fbo = ctx.framebufferBinding then renderbuffer else ctx.depthStencilAttachment fbo }

/-- GL call `glGetIntegerv(pname, data)`: for `GL_VIEWPORT` the four viewport values are
written to `data`; no other name is queried by the source. -/
def glGetIntegerv (pname : Nat) (data : Int4) (ctx : GLContext) : Int4 :=
  if pname = GL_VIEWPORT then
    { v0 := ctx.viewport.x, v1 := ctx.viewport.y,
      v2 := ctx.viewport.width, v3 := ctx.viewport.height }
  else data

/-- GL call `glViewport(x, y, width, height)`. -/
def glViewport (x y width height : Int) (ctx : GLContext) : GLContext :=
  { ctx with viewport := { x := x, y := y, width := width, height := height } }

/-- GL call `glClearColor(red, green, blue, alpha)`. -/
def glClearColor (r g b a : Rat) (ctx : GLContext) : GLContext :=
  { ctx with clearColor := (r, g, b, a) }

/-- GL call `glClear(mask)`: clears the buffers selected by `mask` of the bound framebuffer. -/
def glClear (mask : Nat) (ctx : GLContext) : GLContext :=
  { ctx with commands := ctx.commands ++ [GLCommand.clear ctx.framebufferBinding mask] }

/-- GL call `glUseProgram(program)`. -/
def glUseProgram (program : Nat) (ctx : GLContext) : GLContext :=
  { ctx with currentProgram := program }

/-- GL call `glUniform1i(location, v0)`: sets a uniform of the program in use. -/
def glUniform1i (location : Int) (v0 : Int) (ctx : GLContext) : GLContext :=
  { ctx with uniform1i := fun p l =>
      if p = ctx.currentProgram ∧ l = location then v0 else ctx.uniform1i p l }

/-- GL call `glGetError()`: returns the pending error and resets the flag. -/
def glGetError (ctx : GLContext) : Nat × GLContext :=
  (ctx.error, { ctx with error := GL_NO_ERROR })

/-- Whether the mask of a `glClear` selects the buffer of `bit`. -/
def clearsBuffer (mask bit : Nat) : Bool := mask &&& bit != 0

/-! ## Client memory and the readback -/

/-- A block of client memory: its size in bytes and the byte at each offset. -/
structure Buffer where
  size : Nat
  byte : Nat → Nat

/-- Allocation `std::make_unique<unsigned int[]>(count)`: `count` value-initialised elements. -/
def make_unique_unsigned_int (count : Nat) : Buffer :=
  { size := count * sizeof_unsigned_int, byte := fun _ => 0 }

/-- Bytes from the start of one row to the start of the next in a packed
`GL_RGB`/`GL_UNSIGNED_BYTE` image: `3 * width` rounded up to the pack alignment. -/
def packRowStride (width alignment : Nat) : Nat :=
  alignment * ((3 * width + alignment - 1) / alignment)

/-- Offsets the readback of a `width` x `height` image stores to. -/
def readbackWrites (width height alignment off : Nat) : Bool :=
  decide (off < height * packRowStride width alignment) &&
    decide (off % packRowStride width alignment < 3 * width)

/-- Offsets a readback of the texture bound at the selected unit stores to. -/
def glGetTexImage_writes (target : Nat) (ctx : GLContext) (off : Nat) : Bool :=
  let img := ctx.texImage (ctx.textureBinding ctx.activeTexture target)
  readbackWrites img.width.toNat img.height.toNat ctx.packAlignment off

/-- GL call `glGetTexImage(target, 0, GL_RGB, GL_UNSIGNED_BYTE, pixels)`: the image of the
texture bound at the selected unit is stored at `pixels`, bottom row first, each
row starting at a multiple of the row stride.  `raised` is the error the driver
raises for this call (`GL_NO_ERROR` for none); a call that raises one stores
nothing and sets the error flag unless one is already pending. -/
def glGetTexImage (target : Nat) (raised : Nat) (pixels : Buffer) (ctx : GLContext) :
    Buffer × GLContext :=
  if raised ≠ GL_NO_ERROR then
    (pixels, { ctx with error := if ctx.error = GL_NO_ERROR then raised else ctx.error })
  else
    let img := ctx.texImage (ctx.textureBinding ctx.activeTexture target)
    let stride := packRowStride img.width.toNat ctx.packAlignment
    ({ pixels with byte := fun off =>
        if glGetTexImage_writes target ctx off then
          img.texel (off % stride / 3) (off / stride) (off % stride % 3)
        else pixels.byte off }, ctx)

/-! ## The image encoder (`stb_image_write.h`) and the process environment -/

/-- One call of `stbi_write_jpg`: its arguments, and the image it reads from
`data`: `comp` bytes a pixel, `width` pixels a row, rows one after another, and
with the flip flag set the file's row `r` taken from row `height - 1 - r`. -/
structure JpgWrite where
  path : String
  width : Int
  height : Int
  comp : Int
  quality : Int
  flipped : Bool
  data : Buffer

/-- Byte that `stbi_write_jpg` encodes at file row `r`, column `c`, channel `k`. -/
def JpgWrite.pixel (j : JpgWrite) (r c k : Nat) : Nat :=
  j.data.byte
    (((if j.flipped then j.height.toNat - 1 - r else r) * j.width.toNat + c) * j.comp.toNat + k)

/-- Everything outside the `Framebuffer` object. -/
structure World where
  /-- The OpenGL context. -/
  gl : GLContext
  /-- The flag `stbi_flip_vertically_on_write` sets. -/
  stbi_flip : Bool
  /-- Calls of `stbi_write_jpg`, oldest first. -/
  jpgs : List JpgWrite
  /-- Lines written to `std::cerr`. -/
  cerr : List String
  /-- Errors reported by `CHECK_OPENGL_ERRORS`. -/
  diagnostics : List Nat

/-- Modelled from the spec: the macro `CHECK_OPENGL_ERRORS()` of `utils.cuh`, which
is not among the sources.  Section 7: driver errors are detected and reported
"via a diagnostic check after each batch of driver calls, but not to recover".
The check fetches the pending error with `glGetError` and reports it; it returns
to the caller either way.  It is used as a statement in constructors and `void`
functions, so it cannot make the enclosing function return a value. -/
def CHECK_OPENGL_ERRORS (w : World) : World :=
  let (e, gl) := glGetError w.gl
  { w with gl := gl, diagnostics := if e = GL_NO_ERROR then w.diagnostics else w.diagnostics ++ [e] }

/-! ## Collaborators: `Program` and `VAO` -/

/-- Modelled from the spec: class `Program` (`Program.h` is not among the sources).
Section 6: it "exposes `use()` (bind as active program) and a uniform-location
lookup by name, returning an integer location".  `valid` is the public flag
`render_test_buffer` reads; `at_` is `Program::at`. -/
structure Program where
  id : Nat
  valid : Bool
  at_ : String → Int

/-- Modelled from the spec: `Program::use()`, "bind as active program". -/
def Program.use (p : Program) (ctx : GLContext) : GLContext :=
  glUseProgram p.id ctx

/-- The argument `GLDrawCall(mode, first, count)` of the `VAO` constructor. -/
structure GLDrawCall where
  mode : Nat
  first : Int
  count : Int
deriving DecidableEq, Repr

/-- Modelled from the spec: class `VAO` (`VAO.h` is not among the sources).
Section 6: "any object exposing `draw()` -- issues a fixed draw call using
whatever vertex data/topology it was configured with". -/
structure VAO where
  id : Nat
  call : GLDrawCall
deriving DecidableEq, Repr

/-- Modelled from the spec: the `VAO` constructor takes a fresh vertex-array name
and keeps the draw call it is given. -/
def VAO.make (call : GLDrawCall) (ctx : GLContext) : VAO × GLContext :=
  ({ id := ctx.nextVertexArray, call := call },
   { ctx with nextVertexArray := ctx.nextVertexArray + 1 })

/-- Modelled from the spec: `VAO::draw()` binds the vertex array and issues its
draw call, which runs with the framebuffer and program bound at that moment. -/
def VAO.draw (v : VAO) (ctx : GLContext) : GLContext :=
  { ctx with
    vertexArrayBinding := v.id
    commands := ctx.commands ++
      [GLCommand.draw ctx.framebufferBinding ctx.currentProgram v.id
        v.call.mode v.call.first v.call.count] }

/-! ## `stb_image_write.h` -/

/-- Library call `stbi_flip_vertically_on_write(flag)`. -/
def stbi_flip_vertically_on_write (flag : Bool) (w : World) : World :=
  { w with stbi_flip := flag }

/-- Library call `stbi_write_jpg(path, x, y, comp, data, quality)`.  `ret` is the value the
library returns for this call (0 when it could not write the file). -/
def stbi_write_jpg (path : String) (x y comp : Int) (data : Buffer) (quality : Int)
    (ret : Int) (w : World) : Int × World :=
  (ret, { w with jpgs := w.jpgs ++
    [{ path := path, width := x, height := y, comp := comp, quality := quality,
       flipped := w.stbi_flip, data := data }] })

/-! ## `class Framebuffer` -/

/-- The data members of `Framebuffer` (`Framebuffer.h`, lines 33-41). -/
structure Framebuffer where
  framebuffer_gl : Nat
  texture_gl : Nat
  rbo_gl : Nat
  width : Int
  height : Int
  in_use : Bool
  last_viewport_conf : Int4

/-- Constructor `Framebuffer::Framebuffer(int width, int height)`.  The constructor does not
initialise `last_viewport_conf`; `indeterminate` is what the array holds. -/
def Framebuffer.ctor (width height : Int) (indeterminate : Int4) (w : World) :
    Framebuffer × World :=
  -- Generate texture
  let (texture_gl, gl) := glGenTextures w.gl
  let gl := glBindTexture GL_TEXTURE_2D texture_gl gl
  let gl := glTexParameteri GL_TEXTURE_2D GL_TEXTURE_WRAP_S GL_REPEAT gl
  let gl := glTexParameteri GL_TEXTURE_2D GL_TEXTURE_WRAP_T GL_REPEAT gl
  let gl := glTexParameteri GL_TEXTURE_2D GL_TEXTURE_MIN_FILTER GL_LINEAR gl
  let gl := glTexParameteri GL_TEXTURE_2D GL_TEXTURE_MAG_FILTER GL_LINEAR gl
  let gl := glTexImage2D GL_TEXTURE_2D GL_RGB width height gl
  -- Generate RBO
  let (rbo_gl, gl) := glGenRenderbuffers gl
  let gl := glBindRenderbuffer rbo_gl gl
  let gl := glRenderbufferStorage GL_DEPTH24_STENCIL8 width height gl
  let (framebuffer_gl, gl) := glGenFramebuffers gl
  let gl := glBindFramebuffer framebuffer_gl gl
  let gl := glFramebufferTexture2D texture_gl gl
  let gl := glFramebufferRenderbuffer rbo_gl gl
  let gl := glBindFramebuffer GL_NONE gl
  ({ framebuffer_gl := framebuffer_gl, texture_gl := texture_gl, rbo_gl := rbo_gl,
     width := width, height := height, in_use := false,
     last_viewport_conf := indeterminate },
   CHECK_OPENGL_ERRORS { w with gl := gl })

/-- Element count of the readback buffer,
`width * height * 3 * sizeof(unsigned int)`: the product of the three `int`s is
converted to `size_t` and multiplied there. -/
def Framebuffer.screenshot_count (fb : Framebuffer) : Nat :=
  toSizeT (wrapInt32 (wrapInt32 (fb.width * fb.height) * 3)) * sizeof_unsigned_int % 2 ^ 64

/-- Member function `bool Framebuffer::screenshot(const std::string &path) const`.  `raised` is
the error the driver raises during the readback, `ret` what the encoder returns. -/
def Framebuffer.screenshot (fb : Framebuffer) (path : String) (raised : Nat) (ret : Int)
    (w : World) : Bool × World :=
  let data := make_unique_unsigned_int fb.screenshot_count
  let gl := glBindTexture GL_TEXTURE_2D fb.texture_gl w.gl
  let (data, gl) := glGetTexImage GL_TEXTURE_2D raised data gl
  let w := stbi_flip_vertically_on_write true { w with gl := gl }
  let (ret, w) := stbi_write_jpg path fb.width fb.height 3 data 100 ret w
  if ret = 0 then
    (false, w)
  else
    (true, CHECK_OPENGL_ERRORS w)

/-- Member function `void Framebuffer::use()`. -/
def Framebuffer.use (fb : Framebuffer) (w : World) : Framebuffer × World :=
  let fb := { fb with in_use := true }
  let fb := { fb with
    last_viewport_conf := glGetIntegerv GL_VIEWPORT fb.last_viewport_conf w.gl }
  let gl := glBindFramebuffer fb.framebuffer_gl w.gl
  let gl := glViewport 0 0 fb.width fb.height gl
  let gl := glClear (GL_COLOR_BUFFER_BIT ||| GL_DEPTH_BUFFER_BIT) gl
  (fb, CHECK_OPENGL_ERRORS { w with gl := gl })

/-- Member function `void Framebuffer::done()`. -/
def Framebuffer.done (fb : Framebuffer) (w : World) : Framebuffer × World :=
  let fb := { fb with in_use := false }
  let gl := glBindFramebuffer GL_NONE w.gl
  let gl := glViewport fb.last_viewport_conf.v0 fb.last_viewport_conf.v1
    fb.last_viewport_conf.v2 fb.last_viewport_conf.v3 gl
  (fb, CHECK_OPENGL_ERRORS { w with gl := gl })

/-- Member function `void Framebuffer::resize(int new_width, int new_height)`. -/
def Framebuffer.resize (fb : Framebuffer) (new_width new_height : Int) (w : World) :
    Framebuffer × World :=
  let fb := { fb with width := new_width }
  let fb := { fb with height := new_height }
  let gl := glBindTexture GL_TEXTURE_2D fb.texture_gl w.gl
  let gl := glTexImage2D GL_TEXTURE_2D GL_RGB fb.width fb.height gl
  let gl := glBindRenderbuffer fb.rbo_gl gl
  let gl := glRenderbufferStorage GL_DEPTH24_STENCIL8 fb.width fb.height gl
  let gl := if fb.in_use then glViewport 0 0 fb.width fb.height gl else gl
  (fb, CHECK_OPENGL_ERRORS { w with gl := gl })

/-- Member function `GLuint Framebuffer::get_texture() const`. -/
def Framebuffer.get_texture (fb : Framebuffer) : Nat := fb.texture_gl

/-- Member function `void Framebuffer::draw(vao, program, uniform_name, texture_id)`. -/
def Framebuffer.draw (fb : Framebuffer) (vao : VAO) (program : Program)
    (uniform_name : String) (texture_id : Int) (w : World) : Framebuffer × World :=
  let gl := program.use w.gl
  let gl := glBindTexture GL_TEXTURE_2D fb.texture_gl gl
  let gl := glActiveTexture (toGLenum (wrapInt32 (GL_TEXTURE0 + texture_id))) gl
  let gl := glUniform1i (program.at_ uniform_name) texture_id gl
  let gl := vao.draw gl
  (fb, CHECK_OPENGL_ERRORS { w with gl := gl })

/-- GL call `glm::ivec2 Framebuffer::get_size() const`. -/
def Framebuffer.get_size (fb : Framebuffer) : Int × Int := (fb.width, fb.height)

/-- Statement `std::cerr << line << std::endl`. -/
def cerr_line (line : String) (w : World) : World :=
  { w with cerr := w.cerr ++ [line] }

/-- Member function `bool Framebuffer::render_test_buffer()`.  `made` is what
`Program::make_program` returns (`none` for a null pointer); `raised1`, `ret1`
and `raised2`, `ret2` are the readback error and encoder result of the first and
the second screenshot. -/
def Framebuffer.render_test_buffer (fb : Framebuffer) (made : Option Program)
    (raised1 : Nat) (ret1 : Int) (raised2 : Nat) (ret2 : Int) (w : World) :
    Bool × Framebuffer × World :=
  let (triangle, gl) := VAO.make { mode := GL_TRIANGLES, first := 0, count := 3 } w.gl
  let w := { w with gl := gl }
  match made with
  | none => (false, fb, cerr_line "Invalid simple shaders?" w)
  | some program =>
    if !program.valid then
      (false, fb, cerr_line "Invalid simple shaders?" w)
    else
      let (fb, w) := fb.use w
      let gl := glClearColor 1 (1 / 2) 0 1 w.gl
      let gl := glClear (GL_COLOR_BUFFER_BIT ||| GL_DEPTH_BUFFER_BIT) gl
      let gl := program.use gl
      let gl := triangle.draw gl
      let (ok, w) := fb.screenshot "target.jpg" raised1 ret1 { w with gl := gl }
      if !ok then
        (false, fb, cerr_line "Cannot screenshot to target.jpg." w)
      else
        let (fb, w) := fb.resize 1920 1080 w
        let gl := glClear (GL_COLOR_BUFFER_BIT ||| GL_DEPTH_BUFFER_BIT) w.gl
        let gl := program.use gl
        let gl := triangle.draw gl
        let (ok, w) := fb.screenshot "target_hd.jpg" raised2 ret2 { w with gl := gl }
        if !ok then
          (false, fb, cerr_line "Cannot screenshot to target_hd.jpg." w)
        else
          let w := CHECK_OPENGL_ERRORS w
          let (fb, w) := fb.done w
          let gl := glClearColor 1 1 1 1 w.gl
          (true, fb, { w with gl := gl })

/-! ## Call sequences -/

/-- One call of a public member function, with what the environment supplies to it. -/
inductive Call where
  | use
  | done
  | resize (new_width new_height : Int)
  | draw (vao : VAO) (program : Program) (uniform_name : String) (texture_id : Int)
  | screenshot (path : String) (raised : Nat) (ret : Int)

/-- Whether the call is a `resize` or a `screenshot`. -/
def Call.isResizeOrScreenshot : Call → Bool
  | Call.resize _ _ => true
  | Call.screenshot _ _ _ => true
  | _ => false

/-- Run one call on the object and its environment. -/
def Framebuffer.call (c : Call) (s : Framebuffer × World) : Framebuffer × World :=
  match c with
  | Call.use => s.1.use s.2
  | Call.done => s.1.done s.2
  | Call.resize nw nh => s.1.resize nw nh s.2
  | Call.draw vao program name id => s.1.draw vao program name id s.2
  | Call.screenshot path raised ret => (s.1, (s.1.screenshot path raised ret s.2).2)

/-- Run the calls from left to right. -/
def Framebuffer.calls (cs : List Call) (s : Framebuffer × World) : Framebuffer × World :=
  cs.foldl (fun s c => Framebuffer.call c s) s

/-! ## A concrete starting point -/

/-- A fresh context with an 800 x 600 window. -/
def gl0 : GLContext :=
  { viewport := { x := 0, y := 0, width := 800, height := 600 }
    framebufferBinding := 0
    renderbufferBinding := 0
    activeTexture := 0x84C0
    textureBinding := fun _ _ => 0
    texParameter := fun _ _ => 0
    texImage := fun _ => { width := 0, height := 0, internalFormat := 0, texel := fun _ _ _ => 0 }
    renderbufferStorage := fun _ => { internalFormat := 0, width := 0, height := 0 }
    colorAttachment0 := fun _ => 0
    depthStencilAttachment := fun _ => 0
    currentProgram := 0
    uniform1i := fun _ _ => 0
    clearColor := (0, 0, 0, 0)
    packAlignment := 4
    error := 0
    nextTexture := 1
    nextRenderbuffer := 1
    nextFramebuffer := 1
    nextVertexArray := 1
    vertexArrayBinding := 0
    commands := [] }

/-- The process at start-up. -/
def world0 : World :=
  { gl := gl0, stbi_flip := false, jpgs := [], cerr := [], diagnostics := [] }

/-- The object built by `Framebuffer(640, 480)` at start-up. -/
def fb1 : Framebuffer := (Framebuffer.ctor 640 480 { v0 := 0, v1 := 0, v2 := 0, v3 := 0 } world0).1

/-- The process after `Framebuffer(640, 480)` at start-up. -/
def world1 : World := (Framebuffer.ctor 640 480 { v0 := 0, v1 := 0, v2 := 0, v3 := 0 } world0).2

/-- A linked texture-sampling program whose sampler uniform `tex` is at location 0. -/
def prog1 : Program :=
  { id := 3, valid := true, at_ := fun name => if name = "tex" then 0 else -1 }

/-- A full-screen quad. -/
def quad : VAO := { id := 1, call := { mode := GL_TRIANGLES, first := 0, count := 6 } }

/-- Whether a `glClear` issued after `before` and up to `after` selected the
buffer `bit` of framebuffer `fbo`. -/
def clearedSince (before after : GLContext) (fbo bit : Nat) : Bool :=
  (after.commands.drop before.commands.length).any fun c =>
    match c with
    | GLCommand.clear f mask => f == fbo && clearsBuffer mask bit
    | _ => false

/-- The size `get_size()` reports after a call, given the size before it,
according to the arguments of the call alone. -/
def Call.suppliedSize (c : Call) (size : Int × Int) : Int × Int :=
  match c with
  | Call.resize new_width new_height => (new_width, new_height)
  | _ => size

/-- A second object, built by `Framebuffer(320, 240)` after the first. -/
def fb2 : Framebuffer := (Framebuffer.ctor 320 240 { v0 := 0, v1 := 0, v2 := 0, v3 := 0 } world1).1

/-- The process after both constructors. -/
def world2 : World := (Framebuffer.ctor 320 240 { v0 := 0, v1 := 0, v2 := 0, v3 := 0 } world1).2

/-- The object built by `Framebuffer(1, 2)` at start-up. -/
def fb_1x2 : Framebuffer := (Framebuffer.ctor 1 2 { v0 := 0, v1 := 0, v2 := 0, v3 := 0 } world0).1

/-- The process after `Framebuffer(1, 2)` and a rendering pass that left the
bottom texel at RGB (100, 101, 102) and the top texel at RGB (200, 201, 202). -/
def world_1x2 : World :=
  let w := (Framebuffer.ctor 1 2 { v0 := 0, v1 := 0, v2 := 0, v3 := 0 } world0).2
  let gl := w.gl
  let painted : Nat → TexImage := fun tex =>
    if tex = fb_1x2.texture_gl then
      { width := 1, height := 2, internalFormat := GL_RGB,
        texel := fun c r k => 100 * (r + 1) + 10 * c + k }
    else gl.texImage tex
  { w with gl := { gl with texImage := painted } }

/-- The object built by `Framebuffer(4, 2)` at start-up. -/
def fb_4x2 : Framebuffer := (Framebuffer.ctor 4 2 { v0 := 0, v1 := 0, v2 := 0, v3 := 0 } world0).1

/-- The process after `Framebuffer(4, 2)` and a rendering pass that left the
texel at column `c`, row `r` at RGB `(100 r + 10 c + 100, 100 r + 10 c + 101,
100 r + 10 c + 102)`. -/
def world_4x2 : World :=
  let w := (Framebuffer.ctor 4 2 { v0 := 0, v1 := 0, v2 := 0, v3 := 0 } world0).2
  let gl := w.gl
  let painted : Nat → TexImage := fun tex =>
    if tex = fb_4x2.texture_gl then
      { width := 4, height := 2, internalFormat := GL_RGB,
        texel := fun c r k => 100 * (r + 1) + 10 * c + k }
    else gl.texImage tex
  { w with gl := { gl with texImage := painted } }

/-! ## Frame lemmas -/

theorem CHECK_OPENGL_ERRORS_viewport (w : World) :
    (CHECK_OPENGL_ERRORS w).gl.viewport = w.gl.viewport := rfl

theorem screenshot_viewport (fb : Framebuffer) (path : String) (raised : Nat) (ret : Int)
    (w : World) : (fb.screenshot path raised ret w).2.gl.viewport = w.gl.viewport := by
  unfold Framebuffer.screenshot glGetTexImage
  by_cases hr : raised = GL_NO_ERROR <;> by_cases h0 : ret = 0 <;>
    simp [hr, h0, stbi_write_jpg, stbi_flip_vertically_on_write, CHECK_OPENGL_ERRORS,
      glGetError, glBindTexture]

theorem call_last_viewport_conf (c : Call) (s : Framebuffer × World)
    (hc : c.isResizeOrScreenshot = true) :
    (Framebuffer.call c s).1.last_viewport_conf = s.1.last_viewport_conf := by
  cases c <;> simp [Call.isResizeOrScreenshot] at hc <;> rfl

theorem calls_last_viewport_conf (cs : List Call) (s : Framebuffer × World)
    (hcs : ∀ c ∈ cs, c.isResizeOrScreenshot = true) :
    (Framebuffer.calls cs s).1.last_viewport_conf = s.1.last_viewport_conf := by
  induction cs generalizing s with
  | nil => rfl
  | cons c cs ih =>
    have hc : c.isResizeOrScreenshot = true := hcs c (List.mem_cons_self c cs)
    have hrest : ∀ d ∈ cs, d.isResizeOrScreenshot = true :=
      fun d hd => hcs d (List.mem_cons_of_mem c hd)
    show (Framebuffer.calls cs (Framebuffer.call c s)).1.last_viewport_conf = _
    rw [ih _ hrest, call_last_viewport_conf c s hc]

theorem calls_append (cs ds : List Call) (s : Framebuffer × World) :
    Framebuffer.calls (cs ++ ds) s = Framebuffer.calls ds (Framebuffer.calls cs s) := by
  simp [Framebuffer.calls, List.foldl_append]

theorem done_viewport (fb : Framebuffer) (w : World) :
    (fb.done w).2.gl.viewport =
      { x := fb.last_viewport_conf.v0, y := fb.last_viewport_conf.v1,
        width := fb.last_viewport_conf.v2, height := fb.last_viewport_conf.v3 } := rfl

theorem use_last_viewport_conf (fb : Framebuffer) (w : World) :
    (fb.use w).1.last_viewport_conf =
      { v0 := w.gl.viewport.x, v1 := w.gl.viewport.y,
        v2 := w.gl.viewport.width, v3 := w.gl.viewport.height } := rfl

theorem screenshot_framebufferBinding (fb : Framebuffer) (path : String) (raised : Nat)
    (ret : Int) (w : World) :
    (fb.screenshot path raised ret w).2.gl.framebufferBinding = w.gl.framebufferBinding := by
  unfold Framebuffer.screenshot glGetTexImage
  by_cases hr : raised = GL_NO_ERROR <;> by_cases h0 : ret = 0 <;>
    simp [hr, h0, stbi_write_jpg, stbi_flip_vertically_on_write, CHECK_OPENGL_ERRORS,
      glGetError, glBindTexture]

theorem screenshot_fst (fb : Framebuffer) (path : String) (raised : Nat) (ret : Int)
    (w : World) : (fb.screenshot path raised ret w).1 = !decide (ret = 0) := by
  unfold Framebuffer.screenshot
  by_cases h0 : ret = 0 <;> simp [h0, stbi_write_jpg]

theorem resize_framebufferBinding (fb : Framebuffer) (new_width new_height : Int) (w : World) :
    (fb.resize new_width new_height w).2.gl.framebufferBinding = w.gl.framebufferBinding := by
  unfold Framebuffer.resize
  by_cases h : fb.in_use = true <;> simp [h] <;> rfl

theorem draw_framebufferBinding (v : VAO) (ctx : GLContext) :
    (v.draw ctx).framebufferBinding = ctx.framebufferBinding := rfl

theorem use_framebufferBinding (p : Program) (ctx : GLContext) :
    (p.use ctx).framebufferBinding = ctx.framebufferBinding := rfl

theorem glClear_framebufferBinding (mask : Nat) (ctx : GLContext) :
    (glClear mask ctx).framebufferBinding = ctx.framebufferBinding := rfl

/-! ## Arithmetic of the readback buffer -/

theorem wrapInt32_of_fits (i : Int) (h0 : 0 ≤ i) (h1 : i < 2 ^ 31) : wrapInt32 i = i := by
  unfold wrapInt32
  norm_num at h1 ⊢
  omega

theorem toSizeT_of_fits (i : Int) (h0 : 0 ≤ i) (h1 : i < 2 ^ 31) : toSizeT i = i.toNat := by
  unfold toSizeT
  norm_num at h1 ⊢
  omega

theorem packRowStride_four_le (a : Nat) (ha : 0 < a) : packRowStride a 4 ≤ 6 * a := by
  unfold packRowStride
  omega

theorem readback_extent_le (a b : Nat) (ha : 0 < a) :
    b * packRowStride a 4 ≤ a * b * 3 * 4 * 4 := by
  have h := packRowStride_four_le a ha
  calc b * packRowStride a 4 ≤ b * (6 * a) := Nat.mul_le_mul_left _ h
    _ ≤ a * b * 3 * 4 * 4 := by nlinarith [Nat.zero_le (a * b)]

theorem screenshot_count_of_fits (fb : Framebuffer) (hw : 0 < fb.width) (hh : 0 < fb.height)
    (hfit : fb.width * fb.height * 3 < 2 ^ 31) :
    fb.screenshot_count = fb.width.toNat * fb.height.toNat * 3 * 4 := by
  have hpos : 0 < fb.width * fb.height := Int.mul_pos hw hh
  have hwh : fb.width * fb.height < 2 ^ 31 := by linarith
  unfold Framebuffer.screenshot_count
  rw [wrapInt32_of_fits _ hpos.le hwh, wrapInt32_of_fits _ (by linarith) hfit,
    toSizeT_of_fits _ (by linarith) hfit]
  obtain ⟨a, ha⟩ := Int.eq_ofNat_of_zero_le hw.le
  obtain ⟨b, hb⟩ := Int.eq_ofNat_of_zero_le hh.le
  rw [ha, hb] at hfit ⊢
  have hnat : a * b * 3 < 2 ^ 31 := by exact_mod_cast hfit
  have hcast : ((a : Int) * (b : Int) * 3).toNat = a * b * 3 := by
    have : ((a : Int) * (b : Int) * 3) = ((a * b * 3 : Nat) : Int) := by push_cast; ring
    rw [this, Int.toNat_ofNat]
  rw [hcast, Int.toNat_ofNat, Int.toNat_ofNat]
  simp only [sizeof_unsigned_int]
  norm_num at hnat ⊢
  omega

theorem packRowStride_of_aligned (a : Nat) (h4 : 3 * a % 4 = 0) :
    packRowStride a 4 = 3 * a := by
  unfold packRowStride
  omega

theorem tight_offset_mod (a row c k : Nat) (hc : c < a) (hk : k < 3) :
    ((row * a + c) * 3 + k) % (3 * a) = 3 * c + k := by
  have h : (row * a + c) * 3 + k = (3 * c + k) + (3 * a) * row := by ring
  rw [h, Nat.add_mul_mod_self_left]
  exact Nat.mod_eq_of_lt (by omega)

theorem tight_offset_div (a row c k : Nat) (hc : c < a) (hk : k < 3) :
    ((row * a + c) * 3 + k) / (3 * a) = row := by
  have h : (row * a + c) * 3 + k = (3 * c + k) + (3 * a) * row := by ring
  rw [h, Nat.add_mul_div_left _ _ (by omega : 0 < 3 * a),
    Nat.div_eq_of_lt (by omega : 3 * c + k < 3 * a)]
  omega

/-! ## The color texture has the size of the object -/

theorem ctor_texImage (width height : Int) (ind : Int4) (w : World) :
    ((Framebuffer.ctor width height ind w).2.gl.texImage
        (Framebuffer.ctor width height ind w).1.texture_gl).width = width ∧
    ((Framebuffer.ctor width height ind w).2.gl.texImage
        (Framebuffer.ctor width height ind w).1.texture_gl).height = height := by
  simp [Framebuffer.ctor, CHECK_OPENGL_ERRORS, glGetError, glBindFramebuffer,
    glFramebufferRenderbuffer, glFramebufferTexture2D, glGenFramebuffers,
    glRenderbufferStorage, glBindRenderbuffer, glGenRenderbuffers, glTexImage2D,
    glTexParameteri, glBindTexture, glGenTextures]

theorem resize_texImage (fb : Framebuffer) (new_width new_height : Int) (w : World) :
    ((fb.resize new_width new_height w).2.gl.texImage fb.texture_gl).width = new_width ∧
    ((fb.resize new_width new_height w).2.gl.texImage fb.texture_gl).height = new_height := by
  unfold Framebuffer.resize
  by_cases h : fb.in_use = true <;>
    simp [h, CHECK_OPENGL_ERRORS, glGetError, glViewport, glRenderbufferStorage,
      glBindRenderbuffer, glTexImage2D, glBindTexture]

/-! ## What `screenshot` hands to the encoder -/

theorem screenshot_jpgs (fb : Framebuffer) (path : String) (raised : Nat) (ret : Int)
    (w : World) :
    (fb.screenshot path raised ret w).2.jpgs = w.jpgs ++
      [{ path := path, width := fb.width, height := fb.height, comp := 3, quality := 100,
         flipped := true,
         data := (glGetTexImage GL_TEXTURE_2D raised
           (make_unique_unsigned_int fb.screenshot_count)
           (glBindTexture GL_TEXTURE_2D fb.texture_gl w.gl)).1 }] := by
  unfold Framebuffer.screenshot
  simp only [stbi_write_jpg, stbi_flip_vertically_on_write]
  split <;> rfl

theorem glGetTexImage_byte (target : Nat) (pixels : Buffer) (ctx : GLContext) (off : Nat) :
    (glGetTexImage target 0 pixels ctx).1.byte off =
      if glGetTexImage_writes target ctx off then
        (ctx.texImage (ctx.textureBinding ctx.activeTexture target)).texel
          (off % packRowStride
              (ctx.texImage (ctx.textureBinding ctx.activeTexture target)).width.toNat
              ctx.packAlignment / 3)
          (off / packRowStride
              (ctx.texImage (ctx.textureBinding ctx.activeTexture target)).width.toNat
              ctx.packAlignment)
          (off % packRowStride
              (ctx.texImage (ctx.textureBinding ctx.activeTexture target)).width.toNat
              ctx.packAlignment % 3)
      else pixels.byte off := rfl

/-! ## Checked properties -/

/-- C1: `use()` on an inactive Framebuffer, then any sequence of `resize` and
`screenshot` calls, then `done()`, leaves the context's viewport exactly as it
was before `use()`, in all four components. -/
theorem use_done_restores_viewport (fb : Framebuffer) (w : World) (cs : List Call)
    (_hidle : fb.in_use = false)
    (hcs : ∀ c ∈ cs, c.isResizeOrScreenshot = true) :
    (Framebuffer.calls ([Call.use] ++ cs ++ [Call.done]) (fb, w)).2.gl.viewport
      = w.gl.viewport := by
  rw [calls_append, calls_append]
  show ((Framebuffer.calls cs (fb.use w)).1.done (Framebuffer.calls cs (fb.use w)).2).2.gl.viewport
      = w.gl.viewport
  rw [done_viewport, calls_last_viewport_conf cs _ hcs, use_last_viewport_conf]

/-- Witness for C1: a 640 x 480 target used in an 800 x 600 window, resized twice
with a failing and a succeeding screenshot in between. -/
theorem use_done_restores_viewport_witness :
    fb1.in_use = false ∧
    (Framebuffer.calls
      ([Call.use] ++
        [Call.resize 1920 1080, Call.screenshot "a.jpg" 0 0, Call.resize 17 5,
         Call.screenshot "b.jpg" 0 1] ++ [Call.done]) (fb1, world1)).2.gl.viewport
      = { x := 0, y := 0, width := 800, height := 600 } :=
  ⟨rfl, use_done_restores_viewport fb1 world1 _ rfl (by simp [Call.isResizeOrScreenshot])⟩

/-- C2: `resize(new_width, new_height)` on an active Framebuffer sets the
context's viewport to `(0, 0, new_width, new_height)`; on an inactive one it
leaves the viewport as it was. -/
theorem resize_viewport (fb : Framebuffer) (w : World) (new_width new_height : Int) :
    (fb.in_use = true →
      (fb.resize new_width new_height w).2.gl.viewport
        = { x := 0, y := 0, width := new_width, height := new_height }) ∧
    (fb.in_use = false →
      (fb.resize new_width new_height w).2.gl.viewport = w.gl.viewport) := by
  constructor <;> intro h <;> simp [Framebuffer.resize, h, CHECK_OPENGL_ERRORS_viewport] <;> rfl

/-- Both cases of C2 on the 640 x 480 target: active (after `use()`) and inactive. -/
theorem resize_viewport_witness :
    ((fb1.use world1).1.resize 1920 1080 (fb1.use world1).2).2.gl.viewport
        = { x := 0, y := 0, width := 1920, height := 1080 } ∧
    (fb1.resize 1920 1080 world1).2.gl.viewport
        = { x := 0, y := 0, width := 800, height := 600 } :=
  ⟨(resize_viewport (fb1.use world1).1 (fb1.use world1).2 1920 1080).1 rfl,
   (resize_viewport fb1 world1 1920 1080).2 rfl⟩

theorem call_get_size (c : Call) (s : Framebuffer × World) :
    (Framebuffer.call c s).1.get_size = c.suppliedSize s.1.get_size := by
  cases c <;> rfl

/-- C3: `get_size()` returns the dimensions most recently supplied: `(w, h)`
right after `Framebuffer(w, h)`, `(w2, h2)` after `resize(w2, h2)` whatever the
size was, and `use()`, `done()`, `draw()` and `screenshot()` leave it unchanged;
so after any sequence of calls it is the size of the last `resize`, or of the
constructor when there was none. -/
theorem get_size_most_recent :
    (∀ (width height : Int) (ind : Int4) (w : World),
      (Framebuffer.ctor width height ind w).1.get_size = (width, height)) ∧
    (∀ (fb : Framebuffer) (w2 h2 : Int) (w : World),
      (fb.resize w2 h2 w).1.get_size = (w2, h2)) ∧
    (∀ (fb : Framebuffer) (w : World), (fb.use w).1.get_size = fb.get_size) ∧
    (∀ (fb : Framebuffer) (w : World), (fb.done w).1.get_size = fb.get_size) ∧
    (∀ (fb : Framebuffer) (vao : VAO) (program : Program) (name : String) (id : Int)
      (w : World), (fb.draw vao program name id w).1.get_size = fb.get_size) ∧
    (∀ (fb : Framebuffer) (path : String) (raised : Nat) (ret : Int) (w : World),
      (Framebuffer.call (Call.screenshot path raised ret) (fb, w)).1.get_size = fb.get_size) ∧
    (∀ (cs : List Call) (s : Framebuffer × World),
      (Framebuffer.calls cs s).1.get_size
        = cs.foldl (fun size c => c.suppliedSize size) s.1.get_size) := by
  refine ⟨fun _ _ _ _ => rfl, fun _ _ _ _ => rfl, fun _ _ => rfl, fun _ _ => rfl,
    fun _ _ _ _ _ _ => rfl, fun _ _ _ _ _ => rfl, ?_⟩
  intro cs
  induction cs with
  | nil => intro s; rfl
  | cons c cs ih =>
    intro s
    show (Framebuffer.calls cs (Framebuffer.call c s)).1.get_size = _
    rw [ih, call_get_size]
    rfl

/-- C8: `use(); use(); done()` leaves the object inactive and the context's
viewport at `(0, 0, width, height)`, which is what the second `use()` saved, and
so not at the caller's viewport `v` whenever `v` differs from that rectangle. -/
theorem nested_use_loses_viewport (fb : Framebuffer) (w : World) :
    (Framebuffer.calls [Call.use, Call.use, Call.done] (fb, w)).1.in_use = false ∧
    (Framebuffer.calls [Call.use, Call.use, Call.done] (fb, w)).2.gl.viewport
      = { x := 0, y := 0, width := fb.width, height := fb.height } ∧
    (Framebuffer.calls [Call.use, Call.use] (fb, w)).1.last_viewport_conf
      = { v0 := 0, v1 := 0, v2 := fb.width, v3 := fb.height } ∧
    (w.gl.viewport ≠ { x := 0, y := 0, width := fb.width, height := fb.height } →
      (Framebuffer.calls [Call.use, Call.use, Call.done] (fb, w)).2.gl.viewport
        ≠ w.gl.viewport) :=
  ⟨rfl, rfl, rfl, fun h => Ne.symm h⟩

/-- C8 on the 640 x 480 target in the 800 x 600 window: the viewport ends at
640 x 480 and the window's viewport is lost. -/
theorem nested_use_loses_viewport_witness :
    (Framebuffer.calls [Call.use, Call.use, Call.done] (fb1, world1)).2.gl.viewport
      = { x := 0, y := 0, width := 640, height := 480 } ∧
    (Framebuffer.calls [Call.use, Call.use, Call.done] (fb1, world1)).2.gl.viewport
      ≠ world1.gl.viewport :=
  ⟨(nested_use_loses_viewport fb1 world1).2.1,
   (nested_use_loses_viewport fb1 world1).2.2.2 (by decide)⟩

/-- C4 at a failing input: `draw(quad, prog1, "tex", 1)` in the context as the
constructor left it, with texture unit 0 selected.  The color texture (name 1)
is bound at unit 0, the unit selected before the call; unit 1, the unit the
uniform is set to, has no texture bound.  The uniform is 1 and the draw ran with
the program bound. -/
theorem draw_binds_at_previous_unit :
    fb1.texture_gl = 1 ∧
    world1.gl.activeTexture = toGLenum (GL_TEXTURE0 + 0) ∧
    (fb1.draw quad prog1 "tex" 1 world1).2.gl.textureBinding
        (toGLenum (GL_TEXTURE0 + 1)) GL_TEXTURE_2D = 0 ∧
    (fb1.draw quad prog1 "tex" 1 world1).2.gl.textureBinding
        (toGLenum (GL_TEXTURE0 + 0)) GL_TEXTURE_2D = 1 ∧
    (fb1.draw quad prog1 "tex" 1 world1).2.gl.uniform1i prog1.id (prog1.at_ "tex") = 1 ∧
    (fb1.draw quad prog1 "tex" 1 world1).2.gl.commands
      = [GLCommand.draw 0 prog1.id quad.id GL_TRIANGLES 0 6] := by
  refine ⟨rfl, ?_, ?_, ?_, ?_, ?_⟩ <;> decide

/-- With the default `texture_id = 0`: after the first target was drawn through
unit 1, drawing the second target (texture 2) through unit 0 leaves the first
target's texture (name 1) bound at unit 0, where the sampler reads, and binds
its own texture at unit 1. -/
theorem draw_default_unit_samples_other_target :
    fb1.texture_gl = 1 ∧ fb2.texture_gl = 2 ∧
    (fb2.draw quad prog1 "tex" 0 (fb1.draw quad prog1 "tex" 1 world2).2).2.gl.textureBinding
        (toGLenum (GL_TEXTURE0 + 0)) GL_TEXTURE_2D = 1 ∧
    (fb2.draw quad prog1 "tex" 0 (fb1.draw quad prog1 "tex" 1 world2).2).2.gl.textureBinding
        (toGLenum (GL_TEXTURE0 + 1)) GL_TEXTURE_2D = 2 ∧
    (fb2.draw quad prog1 "tex" 0 (fb1.draw quad prog1 "tex" 1 world2).2).2.gl.uniform1i
        prog1.id (prog1.at_ "tex") = 0 := by
  refine ⟨rfl, ?_, ?_, ?_, ?_⟩ <;> decide

/-- C9 at a failing input: shaders are valid and the encoder returns 0 for
`target.jpg`.  `render_test_buffer()` returns false with `in_use` still true and
the object's framebuffer (name 1), not the default target, still bound. -/
theorem render_test_buffer_returns_active :
    fb1.in_use = false ∧
    (fb1.render_test_buffer (some prog1) 0 0 0 1 world1).1 = false ∧
    (fb1.render_test_buffer (some prog1) 0 0 0 1 world1).2.1.in_use = true ∧
    (fb1.render_test_buffer (some prog1) 0 0 0 1 world1).2.2.gl.framebufferBinding = 1 := by
  refine ⟨rfl, ?_, ?_, ?_⟩ <;> decide

/-- C6 at a failing input: a 1 x 2 target whose bottom texel is (100, 101, 102)
and whose top texel is (200, 201, 202).  The encoder is handed a 1 x 2 image of
3 channels whose top pixel (file row 0) is (0, 200, 201), not the top texel:
the readback stored the rows 4 bytes apart and the encoder reads them 3 bytes
apart. -/
theorem screenshot_skews_unaligned_rows :
    (fb_1x2.screenshot "shot.jpg" 0 1 world_1x2).2.jpgs.map
        (fun j => (j.width, j.height, j.comp, j.flipped,
          j.pixel 0 0 0, j.pixel 0 0 1, j.pixel 0 0 2))
      = [(1, 2, 3, true, 0, 200, 201)] ∧
    ((world_1x2.gl.texImage fb_1x2.texture_gl).texel 0 1 0,
     (world_1x2.gl.texImage fb_1x2.texture_gl).texel 0 1 1,
     (world_1x2.gl.texImage fb_1x2.texture_gl).texel 0 1 2) = (200, 201, 202) ∧
    world_1x2.gl.packAlignment = 4 := by
  refine ⟨?_, ?_, ?_⟩ <;> rfl

/-- What `draw` does in general: the color texture is bound at the unit that was
selected before the call, every other unit keeps its binding, the unit
`GL_TEXTURE0 + texture_id` is selected afterwards, the uniform is set to
`texture_id` in `program`, and the draw call runs with `program` bound. -/
theorem draw_effect (fb : Framebuffer) (vao : VAO) (program : Program) (name : String)
    (texture_id : Int) (w : World) :
    (fb.draw vao program name texture_id w).2.gl.textureBinding
        w.gl.activeTexture GL_TEXTURE_2D = fb.texture_gl ∧
    (∀ u, u ≠ w.gl.activeTexture →
      (fb.draw vao program name texture_id w).2.gl.textureBinding u GL_TEXTURE_2D
        = w.gl.textureBinding u GL_TEXTURE_2D) ∧
    (fb.draw vao program name texture_id w).2.gl.activeTexture
        = toGLenum (wrapInt32 (GL_TEXTURE0 + texture_id)) ∧
    (fb.draw vao program name texture_id w).2.gl.uniform1i program.id (program.at_ name)
        = texture_id ∧
    (fb.draw vao program name texture_id w).2.gl.commands
        = w.gl.commands ++ [GLCommand.draw w.gl.framebufferBinding program.id vao.id
            vao.call.mode vao.call.first vao.call.count] := by
  refine ⟨?_, ?_, rfl, ?_, rfl⟩
  · simp [Framebuffer.draw, CHECK_OPENGL_ERRORS, glGetError, VAO.draw, glUniform1i,
      glActiveTexture, glBindTexture, Program.use, glUseProgram]
  · intro u hu
    simp [Framebuffer.draw, CHECK_OPENGL_ERRORS, glGetError, VAO.draw, glUniform1i,
      glActiveTexture, glBindTexture, Program.use, glUseProgram, hu]
  · simp [Framebuffer.draw, CHECK_OPENGL_ERRORS, glGetError, VAO.draw, glUniform1i,
      glActiveTexture, glBindTexture, Program.use, glUseProgram]

/-- C7 as stated fails: `use()` on the 640 x 480 target issues one clear, of the
color and depth buffers (mask 0x4100); the stencil buffer is not cleared. -/
theorem use_leaves_stencil :
    clearedSince world1.gl (fb1.use world1).2.gl fb1.framebuffer_gl GL_STENCIL_BUFFER_BIT
      = false ∧
    (fb1.use world1).2.gl.commands = [GLCommand.clear 1 0x4100] := by
  constructor <;> decide

/-- C7, amended: after `use()` the saved viewport is the viewport that was
current before the call, the object's framebuffer is the bound render target,
the viewport is `(0, 0, width, height)`, the color and depth buffers of that
framebuffer have been cleared (by one `glClear`, which does not select the
stencil buffer), and the object is marked active. -/
theorem use_effect (fb : Framebuffer) (w : World) :
    (fb.use w).1.last_viewport_conf
      = { v0 := w.gl.viewport.x, v1 := w.gl.viewport.y,
          v2 := w.gl.viewport.width, v3 := w.gl.viewport.height } ∧
    (fb.use w).2.gl.framebufferBinding = fb.framebuffer_gl ∧
    (fb.use w).2.gl.viewport = { x := 0, y := 0, width := fb.width, height := fb.height } ∧
    clearedSince w.gl (fb.use w).2.gl fb.framebuffer_gl GL_COLOR_BUFFER_BIT = true ∧
    clearedSince w.gl (fb.use w).2.gl fb.framebuffer_gl GL_DEPTH_BUFFER_BIT = true ∧
    clearedSince w.gl (fb.use w).2.gl fb.framebuffer_gl GL_STENCIL_BUFFER_BIT = false ∧
    (fb.use w).1.in_use = true := by
  have hcmd : (fb.use w).2.gl.commands
      = w.gl.commands ++ [GLCommand.clear fb.framebuffer_gl 0x4100] := rfl
  have hc : clearsBuffer 0x4100 GL_COLOR_BUFFER_BIT = true := by decide
  have hd : clearsBuffer 0x4100 GL_DEPTH_BUFFER_BIT = true := by decide
  have hs : clearsBuffer 0x4100 GL_STENCIL_BUFFER_BIT = false := by decide
  refine ⟨rfl, rfl, rfl, ?_, ?_, ?_, rfl⟩ <;> simp [clearedSince, hcmd, hc, hd, hs]

/-- C10: for `width > 0`, `height > 0` and `width * height * 3` within `int`, the
buffer `screenshot()` allocates has `width * height * 3 * sizeof(unsigned int)`
elements of 4 bytes, which is at least the `height` rows of `3 * width` bytes
rounded up to a multiple of 4 that the readback stores under pack alignment 4;
every offset the readback stores to lies inside the buffer. -/
theorem screenshot_buffer_holds_readback (fb : Framebuffer) (w : World)
    (hw : 0 < fb.width) (hh : 0 < fb.height)
    (hfit : fb.width * fb.height * 3 < 2 ^ 31)
    (halign : w.gl.packAlignment = 4)
    (himgw : (w.gl.texImage fb.texture_gl).width = fb.width)
    (himgh : (w.gl.texImage fb.texture_gl).height = fb.height) :
    (make_unique_unsigned_int fb.screenshot_count).size
      = fb.width.toNat * fb.height.toNat * 3 * sizeof_unsigned_int * 4 ∧
    fb.height.toNat * packRowStride fb.width.toNat 4
      ≤ (make_unique_unsigned_int fb.screenshot_count).size ∧
    (∀ off, glGetTexImage_writes GL_TEXTURE_2D
        (glBindTexture GL_TEXTURE_2D fb.texture_gl w.gl) off = true →
      off < (make_unique_unsigned_int fb.screenshot_count).size) := by
  have hsize : (make_unique_unsigned_int fb.screenshot_count).size
      = fb.width.toNat * fb.height.toNat * 3 * 4 * 4 := by
    simp [make_unique_unsigned_int, screenshot_count_of_fits fb hw hh hfit,
      sizeof_unsigned_int]
  have hpos : 0 < fb.width.toNat := by omega
  have hext := readback_extent_le fb.width.toNat fb.height.toNat hpos
  refine ⟨by rw [hsize]; rfl, by rw [hsize]; exact hext, ?_⟩
  intro off hoff
  have himg : (glBindTexture GL_TEXTURE_2D fb.texture_gl w.gl).texImage
      ((glBindTexture GL_TEXTURE_2D fb.texture_gl w.gl).textureBinding
        (glBindTexture GL_TEXTURE_2D fb.texture_gl w.gl).activeTexture GL_TEXTURE_2D)
      = w.gl.texImage fb.texture_gl := by
    simp [glBindTexture]
  have hpack : (glBindTexture GL_TEXTURE_2D fb.texture_gl w.gl).packAlignment = 4 := halign
  simp only [glGetTexImage_writes, himg, himgw, himgh, hpack, readbackWrites,
    Bool.and_eq_true, decide_eq_true_eq] at hoff
  rw [hsize]
  exact lt_of_lt_of_le hoff.1 hext

/-- C10 on the 1 x 2 target: 8 bytes are stored into a buffer of 96. -/
theorem screenshot_buffer_holds_readback_witness :
    (make_unique_unsigned_int fb_1x2.screenshot_count).size = 96 ∧
    fb_1x2.height.toNat * packRowStride fb_1x2.width.toNat 4 = 8 ∧
    fb_1x2.height.toNat * packRowStride fb_1x2.width.toNat 4
      ≤ (make_unique_unsigned_int fb_1x2.screenshot_count).size :=
  ⟨by decide, by decide,
   (screenshot_buffer_holds_readback fb_1x2 world_1x2 (by decide) (by decide) (by decide)
      rfl rfl rfl).2.1⟩

/-- The part of C6 that holds: when a row of `3 * width` bytes is a multiple
of 4, a readback without error hands the encoder a `width` x `height` image of
3 channels whose pixel at file row `r`, column `c` is the texel at column `c`,
row `height - 1 - r`. -/
theorem screenshot_image_of_aligned (fb : Framebuffer) (path : String) (ret : Int) (w : World)
    (h4 : 3 * fb.width.toNat % 4 = 0)
    (halign : w.gl.packAlignment = 4)
    (himgw : (w.gl.texImage fb.texture_gl).width = fb.width)
    (himgh : (w.gl.texImage fb.texture_gl).height = fb.height)
    (r c k : Nat) (hr : r < fb.height.toNat) (hc : c < fb.width.toNat) (hk : k < 3) :
    ∃ j : JpgWrite, (fb.screenshot path 0 ret w).2.jpgs = w.jpgs ++ [j] ∧
      j.width = fb.width ∧ j.height = fb.height ∧ j.comp = 3 ∧ j.flipped = true ∧
      j.pixel r c k = (w.gl.texImage fb.texture_gl).texel c (fb.height.toNat - 1 - r) k := by
  have himg : (glBindTexture GL_TEXTURE_2D fb.texture_gl w.gl).texImage
      ((glBindTexture GL_TEXTURE_2D fb.texture_gl w.gl).textureBinding
        (glBindTexture GL_TEXTURE_2D fb.texture_gl w.gl).activeTexture GL_TEXTURE_2D)
      = w.gl.texImage fb.texture_gl := by
    simp [glBindTexture]
  have hpack : (glBindTexture GL_TEXTURE_2D fb.texture_gl w.gl).packAlignment = 4 := halign
  have hstride := packRowStride_of_aligned fb.width.toNat h4
  have hmod := tight_offset_mod fb.width.toNat (fb.height.toNat - 1 - r) c k hc hk
  have hdiv := tight_offset_div fb.width.toNat (fb.height.toNat - 1 - r) c k hc hk
  have hlt : ((fb.height.toNat - 1 - r) * fb.width.toNat + c) * 3 + k
      < fb.height.toNat * (3 * fb.width.toNat) := by
    have h1 : (fb.height.toNat - 1 - r) + 1 ≤ fb.height.toNat := by omega
    have h2 := Nat.mul_le_mul_right (3 * fb.width.toNat) h1
    have h3 : ((fb.height.toNat - 1 - r) * fb.width.toNat + c) * 3 + k
        = (fb.height.toNat - 1 - r) * (3 * fb.width.toNat) + (3 * c + k) := by ring
    rw [h3]
    have h4 : (fb.height.toNat - 1 - r + 1) * (3 * fb.width.toNat)
        = (fb.height.toNat - 1 - r) * (3 * fb.width.toNat) + 3 * fb.width.toNat := by ring
    omega
  have hc3 : (3 * c + k) / 3 = c := by omega
  have hk3 : (3 * c + k) % 3 = k := by omega
  refine ⟨_, screenshot_jpgs fb path 0 ret w, rfl, rfl, rfl, rfl, ?_⟩
  show (glGetTexImage GL_TEXTURE_2D 0 (make_unique_unsigned_int fb.screenshot_count)
      (glBindTexture GL_TEXTURE_2D fb.texture_gl w.gl)).1.byte
        (((fb.height.toNat - 1 - r) * fb.width.toNat + c) * 3 + k) = _
  rw [glGetTexImage_byte]
  have hwrites : glGetTexImage_writes GL_TEXTURE_2D
      (glBindTexture GL_TEXTURE_2D fb.texture_gl w.gl)
      (((fb.height.toNat - 1 - r) * fb.width.toNat + c) * 3 + k) = true := by
    simp only [glGetTexImage_writes, himg, hpack, himgw, himgh, readbackWrites, hstride,
      hmod, Bool.and_eq_true, decide_eq_true_eq]
    exact ⟨hlt, by omega⟩
  rw [if_pos hwrites, himg, hpack, himgw, hstride, hmod, hdiv, hc3, hk3]

/-- The aligned case on a 4 x 2 target: the pixel the encoder reads at file row 0,
column 3, blue channel is the blue byte 232 of the top row's texel at column 3. -/
theorem screenshot_image_of_aligned_witness :
    ∃ j : JpgWrite, (fb_4x2.screenshot "shot.jpg" 0 1 world_4x2).2.jpgs = world_4x2.jpgs ++ [j] ∧
      j.width = 4 ∧ j.height = 2 ∧ j.comp = 3 ∧ j.flipped = true ∧ j.pixel 0 3 2 = 232 :=
  screenshot_image_of_aligned fb_4x2 "shot.jpg" 1 world_4x2 (by decide) rfl rfl rfl 0 3 2
    (by decide) (by decide) (by decide)

/-- All return paths of `render_test_buffer()`: without valid shaders it returns
false and leaves the object and the bound framebuffer as they were; when a
screenshot fails it returns false with the object still active and its
framebuffer still bound; when both succeed it returns true, inactive, with the
default target bound, the caller's viewport restored and size 1920 x 1080. -/
theorem render_test_buffer_paths (fb : Framebuffer) (made : Option Program)
    (raised1 : Nat) (ret1 : Int) (raised2 : Nat) (ret2 : Int) (w : World) :
    ((made = none ∨ ∃ p, made = some p ∧ p.valid = false) →
      (fb.render_test_buffer made raised1 ret1 raised2 ret2 w).1 = false ∧
      (fb.render_test_buffer made raised1 ret1 raised2 ret2 w).2.1.in_use = fb.in_use ∧
      (fb.render_test_buffer made raised1 ret1 raised2 ret2 w).2.2.gl.framebufferBinding
        = w.gl.framebufferBinding) ∧
    (∀ p, made = some p → p.valid = true → (ret1 = 0 ∨ ret2 = 0) →
      (fb.render_test_buffer made raised1 ret1 raised2 ret2 w).1 = false ∧
      (fb.render_test_buffer made raised1 ret1 raised2 ret2 w).2.1.in_use = true ∧
      (fb.render_test_buffer made raised1 ret1 raised2 ret2 w).2.2.gl.framebufferBinding
        = fb.framebuffer_gl) ∧
    (∀ p, made = some p → p.valid = true → ret1 ≠ 0 → ret2 ≠ 0 →
      (fb.render_test_buffer made raised1 ret1 raised2 ret2 w).1 = true ∧
      (fb.render_test_buffer made raised1 ret1 raised2 ret2 w).2.1.in_use = false ∧
      (fb.render_test_buffer made raised1 ret1 raised2 ret2 w).2.2.gl.framebufferBinding
        = GL_NONE ∧
      (fb.render_test_buffer made raised1 ret1 raised2 ret2 w).2.2.gl.viewport
        = w.gl.viewport ∧
      (fb.render_test_buffer made raised1 ret1 raised2 ret2 w).2.1.get_size
        = (1920, 1080)) := by
  refine ⟨?_, ?_, ?_⟩
  · rintro (rfl | ⟨p, rfl, hp⟩)
    · exact ⟨rfl, rfl, rfl⟩
    · simp [Framebuffer.render_test_buffer, hp, cerr_line, VAO.make]
  · rintro p rfl hp hret
    by_cases h1 : ret1 = 0
    · simp only [Framebuffer.render_test_buffer, hp, h1, screenshot_fst, cerr_line,
        Bool.not_true, Bool.not_false, decide_True, Bool.false_eq_true, if_false, if_true]
      refine ⟨trivial, rfl, ?_⟩
      simp only [screenshot_framebufferBinding]
      rfl
    · have h2 : ret2 = 0 := hret.resolve_left h1
      simp only [Framebuffer.render_test_buffer, hp, h1, h2, screenshot_fst, cerr_line,
        Bool.not_true, Bool.not_false, decide_True, decide_False, Bool.false_eq_true,
        if_false, if_true]
      refine ⟨trivial, rfl, ?_⟩
      simp only [screenshot_framebufferBinding, draw_framebufferBinding,
        use_framebufferBinding, glClear_framebufferBinding, resize_framebufferBinding]
      rfl
  · rintro p rfl hp h1 h2
    simp only [Framebuffer.render_test_buffer, hp, h1, h2, screenshot_fst,
      Bool.not_true, Bool.not_false, decide_True, decide_False, Bool.false_eq_true,
      if_false, if_true]
    exact ⟨trivial, rfl, rfl, rfl, rfl⟩

end AdaptiFlux
